import Mathlib

/-!
Verification of the usage-polling and threshold-notification engine of the
ClaudeUsage desktop overlay.

The development shallowly embeds the core of the two source variants:

* `TkVariant` — the fetch client of `claude_usage_overlay.py`
  (`fetch_usage_data`, lines 346-491), which classifies the organization-list
  response (200 / 401 / 429 / other) and retries with exponential backoff;
* `QtVariant` — the fetch client of `claude_usage_overlay_pyqt5.py`
  (`fetch_usage_data`, lines 2181-2252), the usage-rate predictor
  (`calculate_prediction`, lines 2273-2312), the threshold tracker
  (`check_and_notify`, lines 2456-2474), the notification part of
  `update_progress` (lines 2414-2418) and the polling loop
  (`start_polling`, lines 2428-2454).

Network transports are modelled as a function from the attempt number to the
responses the two HTTP calls of that attempt would produce; `time.sleep` is
modelled by recording the requested delay in a trace, and the number of HTTP
requests actually issued is recorded as well.  The Python `float` utilization
values are modelled as rationals.
-/

namespace ClaudeUsage

/-- Result of one HTTP call: a response with a status code and a parsed body,
or one of the exception classes the source catches
(`requests.exceptions.Timeout`, `requests.exceptions.ConnectionError`, any
other `Exception`). -/
inductive Resp (β : Type) where
  | ok (status : Nat) (body : β)
  | timeout
  | connectionError
  | otherExn
deriving DecidableEq

/-- What the network would answer on one attempt of the two-call sequence:
the organization-list response, and the usage-document response that would be
returned if the usage call is issued.  Organization bodies are lists of
organization identifiers; the usage body is an opaque payload `α`. -/
structure Attempt (α : Type) where
  orgsResp : Resp (List String)
  usageResp : Resp α
deriving DecidableEq

/-- Terminal outcome of one `fetch_usage_data` invocation.  The Python
function returns the usage payload on success and `None` otherwise; the
distinct `None` cases are told apart by the `api_status` / `last_api_error`
fields it sets: no session key, session expired (401), or failure after the
retries are exhausted. -/
inductive FetchOutcome (α : Type) where
  | success (d : α)
  | noCredential
  | authExpired
  | err
deriving DecidableEq

/-- Observable result of a fetch invocation: the outcome, the list of
`time.sleep` delays performed (in seconds, in order), and the number of HTTP
requests issued. -/
structure FetchResult (α : Type) where
  outcome : FetchOutcome α
  sleeps : List Nat
  calls : Nat
deriving DecidableEq

/-- Classification of a single attempt, mirroring the branch structure of the
source: success, 401 on the organization list, 429 on the organization list,
or the generic fall-through (any other status, empty organization list,
non-200 usage response, timeout, connection error, unexpected exception). -/
inductive AttemptKind (α : Type) where
  | success (d : α)
  | auth
  | rateLimited
  | generic
deriving DecidableEq

/-- `max_retries = 3` in both variants. -/
def max_retries : Nat := 3

/-- `base_delay = 2` seconds in both variants. -/
def base_delay : Nat := 2

/-- Number of HTTP requests issued during one attempt: the usage call is made
exactly when the organization-list call returned 200 with a nonempty list. -/
def callCount {α : Type} (a : Attempt α) : Nat :=
  match a.orgsResp with
  | .ok status orgs => if status = 200 ∧ ¬ orgs.isEmpty then 2 else 1
  | _ => 1

namespace TkVariant

/-- Classification of one attempt by the `claude_usage_overlay.py` variant:
`if response.status_code == 200: ... elif 401: ... elif 429: ...` followed by
the generic retry path for everything that falls through, with all exception
classes also landing on the generic path.  Note the 401/429 tests apply only
to the organization-list response; a non-200 usage response falls through to
the generic path. -/
def classify {α : Type} (a : Attempt α) : AttemptKind α :=
  match a.orgsResp with
  | .ok status orgs =>
    if status = 200 then
      if ¬ orgs.isEmpty then
        match a.usageResp with
        | .ok ustatus d => if ustatus = 200 then .success d else .generic
        | _ => .generic
      else .generic
    else if status = 401 then .auth
    else if status = 429 then .rateLimited
    else .generic
  | _ => .generic

/-- Retry loop of `fetch_usage_data` (tkinter variant), carrying the attempt
counter exactly as `retry_attempt` does.  The `fuel` argument only bounds the
structural recursion; the loop is always entered with `fuel = max_retries + 1`
so that the guard `retry_attempt < max_retries` fires before fuel can run
out.  On 429 the delay is `base_delay * 2 ^ attempt * 2`; on the generic path
it is `base_delay * 2 ^ attempt`. -/
def fetchGo {α : Type} (tr : Nat → Attempt α) : Nat → Nat → FetchResult α
  | 0, _ => ⟨.err, [], 0⟩
  | fuel + 1, attempt =>
    let a := tr attempt
    match classify a with
    | .success d => ⟨.success d, [], callCount a⟩
    | .auth => ⟨.authExpired, [], callCount a⟩
    | .rateLimited =>
      if attempt < max_retries then
        let rest := fetchGo tr fuel (attempt + 1)
        ⟨rest.outcome, base_delay * 2 ^ attempt * 2 :: rest.sleeps,
          callCount a + rest.calls⟩
      else ⟨.err, [], callCount a⟩
    | .generic =>
      if attempt < max_retries then
        let rest := fetchGo tr fuel (attempt + 1)
        ⟨rest.outcome, base_delay * 2 ^ attempt :: rest.sleeps,
          callCount a + rest.calls⟩
      else ⟨.err, [], callCount a⟩

/-- `fetch_usage_data` of `claude_usage_overlay.py`: fail fast when no
session key is configured, otherwise run the bounded retry loop from
`retry_attempt = 0`. -/
def fetch_usage_data {α : Type} (hasSessionKey : Bool) (tr : Nat → Attempt α) :
    FetchResult α :=
  if hasSessionKey then fetchGo tr (max_retries + 1) 0
  else ⟨.noCredential, [], 0⟩

end TkVariant

namespace QtVariant

/-- Classification of one attempt by the `claude_usage_overlay_pyqt5.py`
variant: success exactly when the organization list came back 200 and
nonempty and the usage call came back 200; every other case — including 401
and 429 on either call — falls through to the single generic retry path. -/
def classify {α : Type} (a : Attempt α) : AttemptKind α :=
  match a.orgsResp with
  | .ok status orgs =>
    if status = 200 ∧ ¬ orgs.isEmpty then
      match a.usageResp with
      | .ok ustatus d => if ustatus = 200 then .success d else .generic
      | _ => .generic
    else .generic
  | _ => .generic

/-- Retry loop of `fetch_usage_data` (PyQt5 variant): a single generic retry
path with delay `base_delay * 2 ^ attempt`, ceiling `max_retries`. -/
def fetchGo {α : Type} (tr : Nat → Attempt α) : Nat → Nat → FetchResult α
  | 0, _ => ⟨.err, [], 0⟩
  | fuel + 1, attempt =>
    let a := tr attempt
    match classify a with
    | .success d => ⟨.success d, [], callCount a⟩
    | _ =>
      if attempt < max_retries then
        let rest := fetchGo tr fuel (attempt + 1)
        ⟨rest.outcome, base_delay * 2 ^ attempt :: rest.sleeps,
          callCount a + rest.calls⟩
      else ⟨.err, [], callCount a⟩

/-- `fetch_usage_data` of `claude_usage_overlay_pyqt5.py`. -/
def fetch_usage_data {α : Type} (hasSessionKey : Bool) (tr : Nat → Attempt α) :
    FetchResult α :=
  if hasSessionKey then fetchGo tr (max_retries + 1) 0
  else ⟨.noCredential, [], 0⟩

end QtVariant

/-- Transport whose organization-list call answers 401 on every attempt. -/
def tr401orgs : Nat → Attempt Nat := fun _ => ⟨.ok 401 [], .ok 200 0⟩

/-- Transport whose organization-list call succeeds but whose usage call
answers 401 on every attempt. -/
def tr401usage : Nat → Attempt Nat := fun _ => ⟨.ok 200 ["org1"], .ok 401 0⟩

/-- Transport that times out on every attempt. -/
def trTimeout : Nat → Attempt Nat := fun _ => ⟨.timeout, .timeout⟩

/-- Transport whose organization-list call answers 429 on every attempt. -/
def tr429orgs : Nat → Attempt Nat := fun _ => ⟨.ok 429 [], .ok 200 0⟩

/-- Transport whose organization-list call succeeds but whose usage call
answers 429 on every attempt. -/
def tr429usage : Nat → Attempt Nat := fun _ => ⟨.ok 200 ["org1"], .ok 429 0⟩

/-- The sample list retained by `calculate_prediction` after pruning samples
older than 30 minutes and appending the current reading, mirroring
`self.usage_history = [(t, u) for t, u in self.usage_history if t > cutoff]`
followed by `self.usage_history.append((now, current_utilization))` with
`cutoff = now - (30 * 60)`. -/
def prunedHistory (history : List (ℚ × ℚ)) (now u : ℚ) : List (ℚ × ℚ) :=
  (history.filter fun s => now - 30 * 60 < s.1) ++ [(now, u)]

/-- `calculate_prediction` of `claude_usage_overlay_pyqt5.py` (lines
2273-2312): prune and append, then require at least 2 samples, a span of at
least 120 seconds from the oldest retained sample, strictly increasing
utilization, utilization below 100, and a linear extrapolation of at most
18000 seconds; otherwise return no prediction. -/
def calculate_prediction (history : List (ℚ × ℚ)) (now u : ℚ) : Option ℚ :=
  let hist := prunedHistory history now u
  if hist.length < 2 then none
  else
    let oldest := hist.headI
    let timeDiff := now - oldest.1
    if timeDiff < 120 then none
    else
      let usageDiff := u - oldest.2
      if usageDiff ≤ 0 then none
      else
        let rate := usageDiff / timeDiff
        let remaining := 100 - u
        if remaining ≤ 0 then none
        else
          let secs := remaining / rate
          if secs > 18000 then none
          else some secs

/-- State of the threshold tracker of `claude_usage_overlay_pyqt5.py`:
`self.notified_thresholds` is a Python set of strings joining the limit
type and the threshold, modelled as pairs `(limitType, threshold)`;
`self.initial_thresholds_set` is the flag that suppresses notifications on
the very first evaluation after process start.  Both are initialised in
`__init__` (lines 213-214) to the empty set and `False`. -/
structure TrackerState where
  notified : Finset (String × ℚ)
  initialSet : Bool
deriving DecidableEq

/-- Body of the `for threshold in sorted(thresholds)` loop of
`check_and_notify`: arm and (when `initial_thresholds_set`) notify on an
upward crossing of a not-yet-armed threshold; disarm when utilization is
below an armed threshold; otherwise leave the state unchanged.  The second
component of the accumulator is the list of notification events emitted so
far, each recorded as its `(limitType, threshold)` key. -/
def notifyStep (initialSet : Bool) (u : ℚ) (limitType : String)
    (acc : Finset (String × ℚ) × List (String × ℚ)) (t : ℚ) :
    Finset (String × ℚ) × List (String × ℚ) :=
  let key := (limitType, t)
  if t ≤ u ∧ key ∉ acc.1 then
    (insert key acc.1, if initialSet then acc.2 ++ [key] else acc.2)
  else if u < t ∧ key ∈ acc.1 then
    (acc.1.erase key, acc.2)
  else acc

/-- `check_and_notify` of `claude_usage_overlay_pyqt5.py` (lines 2456-2474):
a no-op when notifications are disabled, otherwise the threshold loop over
`sorted(thresholds)` (Python `sorted` is modelled by `insertionSort`).
Returns the updated tracker state together with the notification events
emitted. -/
def check_and_notify (enabled : Bool) (thresholds : List ℚ)
    (s : TrackerState) (u : ℚ) (limitType : String) :
    TrackerState × List (String × ℚ) :=
  if enabled then
    let r := (thresholds.insertionSort (· ≤ ·)).foldl
      (notifyStep s.initialSet u limitType) (s.notified, [])
    ({ s with notified := r.1 }, r.2)
  else (s, [])

/-- The notification tail of `update_progress` (lines 2414-2418): evaluate
the five-hour window, then the weekly window, then set
`initial_thresholds_set = True`. -/
def update_progress_notify (enabled : Bool) (thresholds : List ℚ)
    (s : TrackerState) (u5 uw : ℚ) : TrackerState × List (String × ℚ) :=
  let r1 := check_and_notify enabled thresholds s u5 "5-hour"
  let r2 := check_and_notify enabled thresholds r1.1 uw "weekly"
  ({ r2.1 with initialSet := true }, r1.2 ++ r2.2)

/-- An observable event of the background polling loop: invoking the fetch
client, publishing a snapshot to the UI, or sleeping for a number of
seconds. -/
inductive PollEvent (α : Type) where
  | fetchCall
  | publish (d : α)
  | sleepPoll (secs : Nat)
deriving DecidableEq

/-- The `poll_loop` inner function of `start_polling`
(`claude_usage_overlay_pyqt5.py`, lines 2434-2443; `polling_loop` of the
tkinter variant, lines 519-527, has the same shape): while the active flag
is set, invoke the fetch client, publish the result when it returned data,
then sleep the configured poll interval.  `flags` lists the successive
values the loop reads from `self.polling_active` at the top of each
iteration, and `ds` the successive fetch results (`some` data on success,
`none` on failure).  The model is a total function: the loop body cannot
raise. -/
def poll_loop {α : Type} (interval : Nat) :
    List Bool → List (Option α) → List (PollEvent α)
  | true :: flags, d :: ds =>
    PollEvent.fetchCall ::
      ((match d with
        | some x => [PollEvent.publish x]
        | none => []) ++
        PollEvent.sleepPoll interval :: poll_loop interval flags ds)
  | _, _ => []

/-! ### Theorems: fetch client -/

/-- Claim C8: with no session key set, both variants of `fetch_usage_data`
return the no-credential outcome immediately, issue no HTTP request and
perform no sleep. -/
theorem no_session_key_no_network_call {α : Type} (tr trq : Nat → Attempt α) :
    TkVariant.fetch_usage_data false tr = ⟨.noCredential, [], 0⟩ ∧
    QtVariant.fetch_usage_data false trq = ⟨.noCredential, [], 0⟩ := by
  constructor <;> rfl

/-- Claim C2: when every attempt falls on the generic transient path, both
variants sleep exactly 2, 4 and 8 seconds (delay `base_delay * 2 ^ attempt`
for attempts 0, 1, 2) and then return the terminal error outcome. -/
theorem transient_failures_backoff_2_4_8_then_error {α : Type}
    (tr trq : Nat → Attempt α)
    (h : ∀ n, TkVariant.classify (tr n) = .generic)
    (hq : ∀ n, QtVariant.classify (trq n) = .generic) :
    ((TkVariant.fetch_usage_data true tr).sleeps = [2, 4, 8] ∧
      (TkVariant.fetch_usage_data true tr).outcome = .err) ∧
    ((QtVariant.fetch_usage_data true trq).sleeps = [2, 4, 8] ∧
      (QtVariant.fetch_usage_data true trq).outcome = .err) := by
  simp [TkVariant.fetch_usage_data, QtVariant.fetch_usage_data,
    TkVariant.fetchGo, QtVariant.fetchGo, h 0, h 1, h 2, h 3,
    hq 0, hq 1, hq 2, hq 3, max_retries, base_delay]

/-- Witness for claim C2 at the transport that times out on every attempt. -/
theorem transient_backoff_witness :
    (TkVariant.fetch_usage_data true trTimeout).sleeps = [2, 4, 8] ∧
    (QtVariant.fetch_usage_data true trTimeout).sleeps = [2, 4, 8] :=
  ⟨(transient_failures_backoff_2_4_8_then_error trTimeout trTimeout
      (fun _ => rfl) (fun _ => rfl)).1.1,
   (transient_failures_backoff_2_4_8_then_error trTimeout trTimeout
      (fun _ => rfl) (fun _ => rfl)).2.1⟩

/-- Claim C1 (amended): in the tkinter variant, an HTTP 401 answer to the
organization-list request makes the fetch return the auth-expired outcome
immediately, with no retry, no sleep, and a single HTTP request issued. -/
theorem org_list_401_returns_auth_expired_immediately {α : Type}
    (tr : Nat → Attempt α) (body : List String)
    (h : (tr 0).orgsResp = .ok 401 body) :
    TkVariant.fetch_usage_data true tr = ⟨.authExpired, [], 1⟩ := by
  simp [TkVariant.fetch_usage_data, TkVariant.fetchGo, TkVariant.classify, h,
    callCount, max_retries]

/-- Witness for claim C1 at a transport answering 401 to the organization
list. -/
theorem org_list_401_witness :
    TkVariant.fetch_usage_data true tr401orgs = ⟨.authExpired, [], 1⟩ :=
  org_list_401_returns_auth_expired_immediately tr401orgs [] rfl

/-- Counterexample to claim C1 as stated: an HTTP 401 on the second step of
the sequence (the usage-document call) does not yield the auth-expired
outcome and is not returned immediately — it is retried three times with the
generic 2, 4, 8 second backoff and ends in the terminal error outcome. -/
theorem usage_401_is_retried_counterexample :
    (TkVariant.fetch_usage_data true tr401usage).outcome ≠ .authExpired ∧
    (TkVariant.fetch_usage_data true tr401usage).outcome = .err ∧
    (TkVariant.fetch_usage_data true tr401usage).sleeps = [2, 4, 8] := by
  refine ⟨?_, rfl, rfl⟩
  decide

/-- Claim C7 (amended): in the tkinter variant, an HTTP 429 answer to the
organization-list request is retried with double the standard multiplier
(delay `base_delay * 2 ^ attempt * 2`, so 4, 8, 16 seconds) up to the
retry ceiling of `max_retries = 3` retries, then surfaces the terminal
error outcome. -/
theorem org_list_429_doubled_backoff {α : Type} (tr : Nat → Attempt α)
    (h : ∀ n, ∃ body, (tr n).orgsResp = .ok 429 body) :
    (TkVariant.fetch_usage_data true tr).sleeps = [4, 8, 16] ∧
    (TkVariant.fetch_usage_data true tr).outcome = .err := by
  obtain ⟨b0, h0⟩ := h 0
  obtain ⟨b1, h1⟩ := h 1
  obtain ⟨b2, h2⟩ := h 2
  obtain ⟨b3, h3⟩ := h 3
  have c0 : TkVariant.classify (tr 0) = .rateLimited := by
    simp [TkVariant.classify, h0]
  have c1 : TkVariant.classify (tr 1) = .rateLimited := by
    simp [TkVariant.classify, h1]
  have c2 : TkVariant.classify (tr 2) = .rateLimited := by
    simp [TkVariant.classify, h2]
  have c3 : TkVariant.classify (tr 3) = .rateLimited := by
    simp [TkVariant.classify, h3]
  simp [TkVariant.fetch_usage_data, TkVariant.fetchGo, c0, c1, c2, c3,
    max_retries, base_delay]

/-- Witness for claim C7 at a transport answering 429 to the organization
list on every attempt. -/
theorem org_list_429_witness :
    (TkVariant.fetch_usage_data true tr429orgs).sleeps = [4, 8, 16] ∧
    (TkVariant.fetch_usage_data true tr429orgs).outcome = .err :=
  org_list_429_doubled_backoff tr429orgs (fun _ => ⟨[], rfl⟩)

/-- Counterexample to claim C7 as stated: an HTTP 429 on the usage-document
call is retried with the generic delays 2, 4, 8 — not the doubled 4, 8, 16 —
because the 429 test in the source applies only to the organization-list
response. -/
theorem usage_429_generic_backoff_counterexample :
    (TkVariant.fetch_usage_data true tr429usage).sleeps = [2, 4, 8] ∧
    (TkVariant.fetch_usage_data true tr429usage).sleeps ≠ [4, 8, 16] := by
  refine ⟨rfl, ?_⟩
  decide

/-! ### Theorems: usage-rate predictor -/

/-- Claim C6: the predictor returns no prediction when, after pruning and
appending, fewer than 2 samples exist, or the span from the oldest retained
sample to now is under 120 seconds, or utilization is non-increasing over
that span, or utilization is already at or above 100, or the linear
extrapolation exceeds 18000 seconds. -/
theorem prediction_none_on_guards (history : List (ℚ × ℚ)) (now u t0 u0 : ℚ)
    (rest : List (ℚ × ℚ))
    (hp : prunedHistory history now u = (t0, u0) :: rest)
    (hguard : ((t0, u0) :: rest).length < 2 ∨ now - t0 < 120 ∨ u - u0 ≤ 0 ∨
      100 ≤ u ∨ 18000 < (100 - u) / ((u - u0) / (now - t0))) :
    calculate_prediction history now u = none := by
  unfold calculate_prediction
  rw [hp]
  simp only [List.headI_cons, List.length_cons]
  split_ifs with h1 h2 h3 h4 h5
  any_goals rfl
  exfalso
  rcases hguard with h | h | h | h | h
  · simp only [List.length_cons] at h
    exact h1 h
  · exact h2 h
  · exact h3 h
  · exact h4 (by linarith)
  · exact h5 h

/-- Witness for claim C6: with an empty prior history only the appended
current sample remains, so no prediction is produced. -/
theorem prediction_none_witness : calculate_prediction [] 0 50 = none :=
  prediction_none_on_guards [] 0 50 0 50 [] rfl (Or.inl (by norm_num))

/-- Claim C5 (amended): when the retained oldest sample is at least 120
seconds old, utilization strictly increased over that span, current
utilization is below 100, and the extrapolation does not exceed 18000
seconds, the predictor returns `(100 - current) / rate` seconds with
`rate = (current - oldest) / (now - oldestTime)`. -/
theorem prediction_formula (history : List (ℚ × ℚ)) (now u t0 u0 : ℚ)
    (rest : List (ℚ × ℚ))
    (hp : prunedHistory history now u = (t0, u0) :: rest)
    (hspan : 120 ≤ now - t0)
    (hincr : 0 < u - u0)
    (hcap : u < 100)
    (hbound : (100 - u) / ((u - u0) / (now - t0)) ≤ 18000) :
    calculate_prediction history now u =
      some ((100 - u) / ((u - u0) / (now - t0))) := by
  have hrest : rest ≠ [] := by
    intro he
    subst he
    unfold prunedHistory at hp
    rcases hfe : history.filter (fun s => now - 30 * 60 < s.1) with _ | ⟨a, l⟩
    · rw [hfe] at hp
      simp only [List.nil_append, List.cons.injEq, Prod.mk.injEq] at hp
      obtain ⟨⟨hnow, -⟩, -⟩ := hp
      rw [← hnow] at hspan
      linarith
    · rw [hfe] at hp
      have hl := congrArg List.length hp
      simp only [List.length_append, List.length_cons, List.length_singleton,
        List.length_nil] at hl
      omega
  unfold calculate_prediction
  rw [hp]
  simp only [List.headI_cons, List.length_cons]
  split_ifs with h1 h2 h3 h4 h5
  · exact absurd (List.length_eq_zero.mp (by omega)) hrest
  · linarith
  · linarith
  · linarith
  · exact absurd h5 (not_lt.mpr hbound)
  · rfl

/-- Witness for claim C5 at the concrete history of the specification:
samples (t = 0, 10) and (t = 150, 20) yield a prediction of 1200 seconds. -/
theorem prediction_1200_witness :
    calculate_prediction [((0 : ℚ), 10)] 150 20 = some 1200 := by
  have h := prediction_formula [((0 : ℚ), 10)] 150 20 0 10 [(150, 20)]
    (by norm_num [prunedHistory]) (by norm_num) (by norm_num) (by norm_num)
    (by norm_num)
  rw [h]
  norm_num

/-- Counterexample to claim C5 as stated: the history with samples
(t = 0, 50) and (t = 150, 100) has a span of 150 seconds and strictly
increasing utilization, yet the predictor returns `none` rather than the
claimed `(100 - current) / rate` (here 0), because the code also requires
utilization to be strictly below 100. -/
theorem prediction_at_100_counterexample :
    (120 ≤ (150 : ℚ) - 0) ∧ (0 < (100 : ℚ) - 50) ∧
    calculate_prediction [((0 : ℚ), 50)] 150 100 = none ∧
    calculate_prediction [((0 : ℚ), 50)] 150 100 ≠
      some ((100 - 100) / ((100 - 50) / (150 - 0))) := by
  have hnone : calculate_prediction [((0 : ℚ), 50)] 150 100 = none := by
    norm_num [calculate_prediction, prunedHistory]
  refine ⟨by norm_num, by norm_num, hnone, ?_⟩
  rw [hnone]
  simp

/-! ### Theorems: threshold tracker -/

/-- A loop iteration for a threshold key different from `k` neither changes
whether `k` is armed nor emits an event for `k`. -/
lemma notifyStep_ne_key (init : Bool) (u : ℚ) (L : String)
    (acc : Finset (String × ℚ) × List (String × ℚ)) (t' : ℚ)
    (k : String × ℚ) (hk : k ≠ (L, t')) :
    (k ∈ (notifyStep init u L acc t').1 ↔ k ∈ acc.1) ∧
      (notifyStep init u L acc t').2.count k = acc.2.count k := by
  unfold notifyStep
  dsimp only
  by_cases h1 : t' ≤ u ∧ (L, t') ∉ acc.1
  · rw [if_pos h1]
    refine ⟨by simp [Finset.mem_insert, hk], ?_⟩
    cases init <;>
      simp [List.count_append, List.count_eq_zero, hk]
  · rw [if_neg h1]
    by_cases h2 : u < t' ∧ (L, t') ∈ acc.1
    · rw [if_pos h2]
      exact ⟨by simp [Finset.mem_erase, hk], rfl⟩
    · rw [if_neg h2]
      exact ⟨Iff.rfl, rfl⟩

/-- Folding the threshold loop for one window kind leaves keys of other
window kinds untouched and emits no events for them. -/
lemma foldl_notifyStep_other (init : Bool) (u : ℚ) (L : String)
    (k : String × ℚ) (hk : k.1 ≠ L) :
    ∀ (l : List ℚ) (acc : Finset (String × ℚ) × List (String × ℚ)),
      (k ∈ (l.foldl (notifyStep init u L) acc).1 ↔ k ∈ acc.1) ∧
        (l.foldl (notifyStep init u L) acc).2.count k = acc.2.count k := by
  intro l
  induction l with
  | nil => exact fun acc => ⟨Iff.rfl, rfl⟩
  | cons t' l ih =>
    intro acc
    rw [List.foldl_cons]
    have hk' : k ≠ (L, t') := fun he => hk (by rw [he])
    have hs := notifyStep_ne_key init u L acc t' k hk'
    have hi := ih (notifyStep init u L acc t')
    exact ⟨hi.1.trans hs.1, hi.2.trans hs.2⟩

/-- With `initial_thresholds_set = False` the threshold loop emits no
events at all. -/
lemma foldl_notifyStep_no_events (u : ℚ) (L : String) :
    ∀ (l : List ℚ) (acc : Finset (String × ℚ) × List (String × ℚ)),
      (l.foldl (notifyStep false u L) acc).2 = acc.2 := by
  intro l
  induction l with
  | nil => exact fun acc => rfl
  | cons t' l ih =>
    intro acc
    rw [List.foldl_cons, ih]
    unfold notifyStep
    dsimp only
    by_cases h1 : t' ≤ u ∧ (L, t') ∉ acc.1
    · rw [if_pos h1]
      simp
    · rw [if_neg h1]
      by_cases h2 : u < t' ∧ (L, t') ∈ acc.1
      · rw [if_pos h2]
      · rw [if_neg h2]

/-- A loop iteration for an already armed threshold at or below utilization
leaves the accumulator unchanged. -/
lemma notifyStep_self_armed_ge (init : Bool) (u : ℚ) (L : String)
    (acc : Finset (String × ℚ) × List (String × ℚ)) (t : ℚ)
    (hu : t ≤ u) (hm : (L, t) ∈ acc.1) :
    notifyStep init u L acc t = acc := by
  unfold notifyStep
  dsimp only
  rw [if_neg (fun hc => hc.2 hm), if_neg (fun hc => absurd hc.1 (not_lt.mpr hu))]

/-- A loop iteration for a not-yet-armed threshold at or below utilization
arms it and, when past the first evaluation, emits its event. -/
lemma notifyStep_self_new_ge (init : Bool) (u : ℚ) (L : String)
    (acc : Finset (String × ℚ) × List (String × ℚ)) (t : ℚ)
    (hu : t ≤ u) (hm : (L, t) ∉ acc.1) :
    notifyStep init u L acc t =
      (insert (L, t) acc.1, if init then acc.2 ++ [(L, t)] else acc.2) := by
  unfold notifyStep
  dsimp only
  rw [if_pos ⟨hu, hm⟩]

/-- A loop iteration for an armed threshold above utilization disarms it
and emits nothing. -/
lemma notifyStep_self_armed_lt (init : Bool) (u : ℚ) (L : String)
    (acc : Finset (String × ℚ) × List (String × ℚ)) (t : ℚ)
    (hu : u < t) (hm : (L, t) ∈ acc.1) :
    notifyStep init u L acc t = (acc.1.erase (L, t), acc.2) := by
  unfold notifyStep
  dsimp only
  rw [if_neg (fun hc => hc.2 hm), if_pos ⟨hu, hm⟩]

/-- A loop iteration for an unarmed threshold above utilization is a no-op. -/
lemma notifyStep_self_new_lt (init : Bool) (u : ℚ) (L : String)
    (acc : Finset (String × ℚ) × List (String × ℚ)) (t : ℚ)
    (hu : u < t) (hm : (L, t) ∉ acc.1) :
    notifyStep init u L acc t = acc := by
  unfold notifyStep
  dsimp only
  rw [if_neg (fun hc => absurd hc.1 (not_le.mpr hu)), if_neg (fun hc => hm hc.2)]

/-- Behaviour of the threshold loop for a fixed key `(L, t)` when `t ≤ u`:
an armed key stays armed with no event; an unarmed key whose threshold
occurs in the list gets armed, with exactly one event when past the first
evaluation and none otherwise; an unarmed key whose threshold does not
occur stays unarmed with no event. -/
lemma foldl_notifyStep_ge (init : Bool) (u : ℚ) (L : String) (t : ℚ)
    (hu : t ≤ u) :
    ∀ (l : List ℚ) (acc : Finset (String × ℚ) × List (String × ℚ)),
      ((L, t) ∈ acc.1 →
        (L, t) ∈ (l.foldl (notifyStep init u L) acc).1 ∧
          (l.foldl (notifyStep init u L) acc).2.count (L, t) =
            acc.2.count (L, t)) ∧
      ((L, t) ∉ acc.1 → t ∈ l →
        (L, t) ∈ (l.foldl (notifyStep init u L) acc).1 ∧
          (l.foldl (notifyStep init u L) acc).2.count (L, t) =
            acc.2.count (L, t) + (if init then 1 else 0)) ∧
      ((L, t) ∉ acc.1 → t ∉ l →
        (L, t) ∉ (l.foldl (notifyStep init u L) acc).1 ∧
          (l.foldl (notifyStep init u L) acc).2.count (L, t) =
            acc.2.count (L, t)) := by
  intro l
  induction l with
  | nil =>
    intro acc
    exact ⟨fun hm => ⟨hm, rfl⟩, fun _ ht => absurd ht (List.not_mem_nil t),
      fun hm _ => ⟨hm, rfl⟩⟩
  | cons t' l ih =>
    intro acc
    rw [List.foldl_cons]
    by_cases ht : t' = t
    · subst ht
      by_cases hm : (L, t') ∈ acc.1
      · rw [notifyStep_self_armed_ge init u L acc t' hu hm]
        exact ⟨fun _ => (ih acc).1 hm, fun hn => absurd hm hn,
          fun hn _ => absurd hm hn⟩
      · rw [notifyStep_self_new_ge init u L acc t' hu hm]
        have h1 := (ih (insert (L, t') acc.1,
          if init then acc.2 ++ [(L, t')] else acc.2)).1
          (Finset.mem_insert_self _ _)
        have hcnt : (if init then acc.2 ++ [(L, t')] else acc.2).count (L, t')
            = acc.2.count (L, t') + (if init then 1 else 0) := by
          cases init <;> simp [List.count_append]
        refine ⟨fun hm2 => absurd hm2 hm,
          fun _ _ => ⟨h1.1, by rw [h1.2]; exact hcnt⟩,
          fun _ hnl => absurd (List.mem_cons_self _ _) hnl⟩
    · have hk' : (L, t) ≠ (L, t') := by
        intro he
        exact ht (congrArg Prod.snd he).symm
      have hs := notifyStep_ne_key init u L acc t' (L, t) hk'
      have hi := ih (notifyStep init u L acc t')
      refine ⟨?_, ?_, ?_⟩
      · intro hm
        have h := hi.1 (hs.1.mpr hm)
        exact ⟨h.1, h.2.trans hs.2⟩
      · intro hm htl
        have htl' : t ∈ l := by
          rcases List.mem_cons.mp htl with he | hl
          · exact absurd he.symm ht
          · exact hl
        have h := hi.2.1 (fun hin => hm (hs.1.mp hin)) htl'
        exact ⟨h.1, by rw [h.2, hs.2]⟩
      · intro hm htl
        have htl' : t ∉ l := fun hl => htl (List.mem_cons_of_mem _ hl)
        have h := hi.2.2 (fun hin => hm (hs.1.mp hin)) htl'
        exact ⟨h.1, h.2.trans hs.2⟩

/-- Behaviour of the threshold loop for a fixed key `(L, t)` when `u < t`:
an armed key whose threshold occurs in the list is disarmed, an armed key
whose threshold does not occur stays armed, an unarmed key stays unarmed;
no event for the key is emitted in any case. -/
lemma foldl_notifyStep_lt (init : Bool) (u : ℚ) (L : String) (t : ℚ)
    (hu : u < t) :
    ∀ (l : List ℚ) (acc : Finset (String × ℚ) × List (String × ℚ)),
      ((L, t) ∈ acc.1 → t ∈ l →
        (L, t) ∉ (l.foldl (notifyStep init u L) acc).1 ∧
          (l.foldl (notifyStep init u L) acc).2.count (L, t) =
            acc.2.count (L, t)) ∧
      ((L, t) ∈ acc.1 → t ∉ l →
        (L, t) ∈ (l.foldl (notifyStep init u L) acc).1 ∧
          (l.foldl (notifyStep init u L) acc).2.count (L, t) =
            acc.2.count (L, t)) ∧
      ((L, t) ∉ acc.1 →
        (L, t) ∉ (l.foldl (notifyStep init u L) acc).1 ∧
          (l.foldl (notifyStep init u L) acc).2.count (L, t) =
            acc.2.count (L, t)) := by
  intro l
  induction l with
  | nil =>
    intro acc
    exact ⟨fun _ ht => absurd ht (List.not_mem_nil t), fun hm _ => ⟨hm, rfl⟩,
      fun hm => ⟨hm, rfl⟩⟩
  | cons t' l ih =>
    intro acc
    rw [List.foldl_cons]
    by_cases ht : t' = t
    · subst ht
      by_cases hm : (L, t') ∈ acc.1
      · rw [notifyStep_self_armed_lt init u L acc t' hu hm]
        have h3 := (ih (acc.1.erase (L, t'), acc.2)).2.2
          (Finset.not_mem_erase _ _)
        exact ⟨fun _ _ => h3, fun _ hnl => absurd (List.mem_cons_self _ _) hnl,
          fun hn => absurd hm hn⟩
      · rw [notifyStep_self_new_lt init u L acc t' hu hm]
        exact ⟨fun hm2 => absurd hm2 hm, fun hm2 => absurd hm2 hm,
          fun _ => (ih acc).2.2 hm⟩
    · have hk' : (L, t) ≠ (L, t') := by
        intro he
        exact ht (congrArg Prod.snd he).symm
      have hs := notifyStep_ne_key init u L acc t' (L, t) hk'
      have hi := ih (notifyStep init u L acc t')
      refine ⟨?_, ?_, ?_⟩
      · intro hm htl
        have htl' : t ∈ l := by
          rcases List.mem_cons.mp htl with he | hl
          · exact absurd he.symm ht
          · exact hl
        have h := hi.1 (hs.1.mpr hm) htl'
        exact ⟨h.1, h.2.trans hs.2⟩
      · intro hm htl
        have htl' : t ∉ l := fun hl => htl (List.mem_cons_of_mem _ hl)
        have h := hi.2.1 (hs.1.mpr hm) htl'
        exact ⟨h.1, h.2.trans hs.2⟩
      · intro hm
        have h := hi.2.2 (fun hin => hm (hs.1.mp hin))
        exact ⟨h.1, h.2.trans hs.2⟩

/-- Unfolding of `check_and_notify` with notifications enabled: the armed
set is replaced by the fold result, the first-evaluation flag is preserved,
and the emitted events are the fold events. -/
lemma check_and_notify_true (thresholds : List ℚ) (s : TrackerState)
    (u : ℚ) (L : String) :
    check_and_notify true thresholds s u L =
      (⟨((thresholds.insertionSort (· ≤ ·)).foldl
          (notifyStep s.initialSet u L) (s.notified, [])).1, s.initialSet⟩,
        ((thresholds.insertionSort (· ≤ ·)).foldl
          (notifyStep s.initialSet u L) (s.notified, [])).2) := rfl

/-- Claim C3: with notifications enabled and past the first evaluation, for
every window kind and every configured threshold: an evaluation at or above
a not-yet-armed threshold arms it and emits exactly one event for it; an
evaluation at or above an armed threshold emits nothing further; an
evaluation below an armed threshold disarms it and emits nothing; and after
such a disarm, a later evaluation back at or above the threshold emits
exactly once again. -/
theorem threshold_crossing_notifies_once (thresholds : List ℚ)
    (s : TrackerState) (u u2 : ℚ) (L : String) (t : ℚ)
    (hinit : s.initialSet = true) (ht : t ∈ thresholds) :
    (t ≤ u → (L, t) ∉ s.notified →
      (L, t) ∈ (check_and_notify true thresholds s u L).1.notified ∧
        (check_and_notify true thresholds s u L).2.count (L, t) = 1) ∧
    (t ≤ u → (L, t) ∈ s.notified →
      (L, t) ∈ (check_and_notify true thresholds s u L).1.notified ∧
        (check_and_notify true thresholds s u L).2.count (L, t) = 0) ∧
    (u < t → (L, t) ∈ s.notified →
      (L, t) ∉ (check_and_notify true thresholds s u L).1.notified ∧
        (check_and_notify true thresholds s u L).2.count (L, t) = 0) ∧
    (u < t → t ≤ u2 → (L, t) ∈ s.notified →
      (check_and_notify true thresholds
          (check_and_notify true thresholds s u L).1 u2 L).2.count (L, t)
        = 1) := by
  have hts : t ∈ thresholds.insertionSort (· ≤ ·) :=
    (List.mem_insertionSort (· ≤ ·)).mpr ht
  refine ⟨?_, ?_, ?_, ?_⟩
  · intro hu hm
    rw [check_and_notify_true]
    dsimp only
    rw [hinit]
    have h := (foldl_notifyStep_ge true u L t hu
      (thresholds.insertionSort (· ≤ ·)) (s.notified, [])).2.1 hm hts
    exact ⟨h.1, by simpa using h.2⟩
  · intro hu hm
    rw [check_and_notify_true]
    dsimp only
    rw [hinit]
    have h := (foldl_notifyStep_ge true u L t hu
      (thresholds.insertionSort (· ≤ ·)) (s.notified, [])).1 hm
    exact ⟨h.1, by simpa using h.2⟩
  · intro hu hm
    rw [check_and_notify_true]
    dsimp only
    rw [hinit]
    have h := (foldl_notifyStep_lt true u L t hu
      (thresholds.insertionSort (· ≤ ·)) (s.notified, [])).1 hm hts
    exact ⟨h.1, by simpa using h.2⟩
  · intro hu hu2 hm
    rw [check_and_notify_true]
    dsimp only
    rw [check_and_notify_true]
    dsimp only
    rw [hinit]
    have hdis := (foldl_notifyStep_lt true u L t hu
      (thresholds.insertionSort (· ≤ ·)) (s.notified, [])).1 hm hts
    have harm := (foldl_notifyStep_ge true u2 L t hu2
      (thresholds.insertionSort (· ≤ ·))
      (((thresholds.insertionSort (· ≤ ·)).foldl
        (notifyStep true u L) (s.notified, [])).1, [])).2.1
      hdis.1 hts
    simpa using harm.2

/-- Witness for claim C3: from the initial post-baseline state with
thresholds 70 and 90, an evaluation of the five-hour window at 75 percent
arms threshold 70 and emits exactly one event for it. -/
theorem threshold_crossing_notifies_once_witness :
    ("5-hour", (70 : ℚ)) ∈
      (check_and_notify true [70, 90] ⟨∅, true⟩ 75 "5-hour").1.notified ∧
    (check_and_notify true [70, 90] ⟨∅, true⟩ 75
        "5-hour").2.count ("5-hour", (70 : ℚ)) = 1 :=
  (threshold_crossing_notifies_once [70, 90] ⟨∅, true⟩ 75 0 "5-hour" 70
    rfl (by norm_num)).1 (by norm_num) (by simp)

/-- Claim C10: with the notifications-enabled flag false,
`check_and_notify` is a no-op: it emits no event and leaves the armed set
and the first-evaluation flag unchanged. -/
theorem notifications_disabled_noop (thresholds : List ℚ) (s : TrackerState)
    (u : ℚ) (L : String) :
    (check_and_notify false thresholds s u L).1.notified = s.notified ∧
      (check_and_notify false thresholds s u L).1.initialSet = s.initialSet ∧
      (check_and_notify false thresholds s u L).2 = [] :=
  ⟨rfl, rfl, rfl⟩

/-- Claim C4: on the very first evaluation after process start (empty armed
set, `initial_thresholds_set = False`), the notification pass of
`update_progress` emits no events, arms every crossed threshold of both
window kinds silently, and sets the flag so that events are emitted only
from the second evaluation onward. -/
theorem first_evaluation_suppressed (thresholds : List ℚ) (u5 uw : ℚ) :
    (update_progress_notify true thresholds ⟨∅, false⟩ u5 uw).2 = [] ∧
    (update_progress_notify true thresholds ⟨∅, false⟩ u5 uw).1.initialSet
      = true ∧
    (∀ t, t ∈ thresholds → t ≤ u5 → ("5-hour", t) ∈
      (update_progress_notify true thresholds ⟨∅, false⟩ u5 uw).1.notified) ∧
    (∀ t, t ∈ thresholds → t ≤ uw → ("weekly", t) ∈
      (update_progress_notify true thresholds ⟨∅, false⟩ u5 uw).1.notified) := by
  have hne : ("5-hour" : String) ≠ "weekly" := by decide
  have hne' : ("weekly" : String) ≠ "5-hour" := by decide
  unfold update_progress_notify
  rw [check_and_notify_true]
  dsimp only
  rw [check_and_notify_true]
  dsimp only
  refine ⟨?_, rfl, ?_, ?_⟩
  · rw [foldl_notifyStep_no_events, foldl_notifyStep_no_events]
    rfl
  · intro t htl hu
    have h1 := (foldl_notifyStep_ge false u5 "5-hour" t hu
      (thresholds.insertionSort (· ≤ ·)) (∅, [])).2.1
      (Finset.not_mem_empty _) ((List.mem_insertionSort (· ≤ ·)).mpr htl)
    exact (foldl_notifyStep_other false uw "weekly" ("5-hour", t)
      hne (thresholds.insertionSort (· ≤ ·)) _).1.mpr h1.1
  · intro t htl hu
    have h0 : ("weekly", t) ∉ ((thresholds.insertionSort (· ≤ ·)).foldl
        (notifyStep false u5 "5-hour") (∅, [])).1 := by
      intro hin
      exact Finset.not_mem_empty _
        ((foldl_notifyStep_other false u5 "5-hour" ("weekly", t)
          hne' (thresholds.insertionSort (· ≤ ·)) (∅, [])).1.mp hin)
    exact ((foldl_notifyStep_ge false uw "weekly" t hu
      (thresholds.insertionSort (· ≤ ·))
      (((thresholds.insertionSort (· ≤ ·)).foldl
        (notifyStep false u5 "5-hour") (∅, [])).1, [])).2.1 h0
      ((List.mem_insertionSort (· ≤ ·)).mpr htl)).1

/-- Witness for claim C4: with thresholds 70 and 90 and a first snapshot at
95 percent (five-hour) and 60 percent (weekly), no event is emitted and
threshold 70 of the five-hour window is armed silently. -/
theorem first_evaluation_suppressed_witness :
    (update_progress_notify true [70, 90] ⟨∅, false⟩ 95 60).2 = [] ∧
    ("5-hour", (70 : ℚ)) ∈
      (update_progress_notify true [70, 90] ⟨∅, false⟩ 95 60).1.notified :=
  ⟨(first_evaluation_suppressed [70, 90] 95 60).1,
    (first_evaluation_suppressed [70, 90] 95 60).2.2.1 70 (by norm_num)
      (by norm_num)⟩

/-! ### Theorems: polling scheduler -/

/-- Claim C9: in every run of the polling loop, the number of fetch
invocations equals the number of leading iterations whose active-flag read
was true — so once the flag is false no further fetch happens and the loop
exits; every iteration performs exactly one poll-interval sleep whether or
not the fetch succeeded; and the published snapshots are exactly the
successful fetch results of those iterations, in order. -/
theorem polling_loop_fetch_publish_sleep {α : Type} [DecidableEq α]
    (interval : Nat) (flags : List Bool) (ds : List (Option α))
    (hlen : flags.length = ds.length) :
    (poll_loop interval flags ds).count PollEvent.fetchCall
        = (flags.takeWhile id).length ∧
    (poll_loop interval flags ds).count (PollEvent.sleepPoll interval)
        = (flags.takeWhile id).length ∧
    (poll_loop interval flags ds).filterMap
        (fun e => match e with | PollEvent.publish d => some d | _ => none)
      = (ds.take (flags.takeWhile id).length).reduceOption := by
  induction flags generalizing ds with
  | nil =>
    cases ds with
    | nil => simp [poll_loop]
    | cons d ds => simp at hlen
  | cons f flags ih =>
    cases ds with
    | nil => simp at hlen
    | cons d ds =>
      cases f
      · simp [poll_loop, List.takeWhile_cons, id]
      · have h := ih ds (by simpa using hlen)
        cases d <;>
          simp [poll_loop, List.takeWhile_cons, id, List.count_cons,
            List.count_append, List.filterMap_cons, List.reduceOption,
            h.1, h.2.1, h.2.2]

/-- Witness for claim C9: two active iterations (one successful fetch, one
failed) followed by a cleared flag give two fetches, two sleeps and one
published snapshot. -/
theorem polling_loop_witness :
    (poll_loop 60 [true, true, false] [some (1 : Nat), none, some 2]).count
        PollEvent.fetchCall = 2 ∧
    (poll_loop 60 [true, true, false] [some (1 : Nat), none, some 2]).count
        (PollEvent.sleepPoll 60) = 2 ∧
    (poll_loop 60 [true, true, false]
        [some (1 : Nat), none, some 2]).filterMap
        (fun e => match e with | PollEvent.publish d => some d | _ => none)
      = [1] := by
  have h := polling_loop_fetch_publish_sleep 60 [true, true, false]
    [some (1 : Nat), none, some 2] rfl
  exact ⟨h.1.trans (by decide), h.2.1.trans (by decide),
    h.2.2.trans (by decide)⟩

end ClaudeUsage
